import Mathlib

/-!
Verification of the dashboard aggregation service of a school-management
backend (`controller/dashboardController`, models `user` and `admission`,
routes `dashboard`).  The controller computes, per request, a report over two
collections: admission records and user records.  We shallowly embed the two
handlers `getDashboardOverview` and `getQuickStats` and the pure computation
they perform, and prove the specified properties about them.

Conventions of the embedding:
* JavaScript `Date` values are modelled by `DateTime` below: a calendar point
  `(year, month, day, ms)` with `month` in JS style (0 = January, 11 =
  December) and `ms` the milliseconds elapsed since the midnight starting the
  day.  Comparison of dates (`$gte` / `$lte` in the Mongo filters) is the
  lexicographic order on the four fields, which on well-formed dates agrees
  with the order of the underlying instants.
* `new Date(y, m, d)` with an out-of-range month or with day 0 normalizes the
  way JavaScript does; the controller only uses day arguments `0` and `1`.
* JavaScript numbers are modelled by `ℚ`; `Math.round` is `jsRound`
  (half-up: `⌊x + 1/2⌋`), exactly the JS behaviour on finite values.
* The document stores are lists of records; `countDocuments(filter)` is the
  length of the filtered list, and the two `aggregate` pipelines used by the
  controller are modelled group-stage by group-stage.
* Fallibility of the data store is modelled by an oracle
  `fail : Nat → Option String` giving, for the i-th query a handler issues,
  the error text it fails with (or `none` for success).  Each handler returns
  its HTTP response together with the number of store queries it issued.
-/

/-- A JavaScript `Date`: calendar fields plus milliseconds within the day.
`month` is 0-based as in JS (`Date.prototype.getMonth`). -/
structure DateTime where
  year : Int
  month : Int
  day : Int
  ms : Int
deriving Repr, DecidableEq

/-- Lexicographic comparison of date-times; models `$lte`/`$gte` on dates. -/
def DateTime.dle (a b : DateTime) : Bool :=
  a.year < b.year ||
    (a.year == b.year &&
      (a.month < b.month ||
        (a.month == b.month &&
          (a.day < b.day || (a.day == b.day && a.ms ≤ b.ms)))))

/-- Gregorian leap-year rule (as implemented by JS `Date`). -/
def isLeapYear (y : Int) : Bool :=
  (y % 4 == 0 && y % 100 != 0) || y % 400 == 0

/-- Number of days of month `m` (0-based) of year `y`. -/
def daysInMonth (y m : Int) : Int :=
  if m == 1 then (if isLeapYear y then 29 else 28)
  else if m == 3 || m == 5 || m == 8 || m == 10 then 30
  else 31

/-- JS `new Date(y, m, d)` at midnight local time: the month is normalized
into `0..11` carrying into the year, and day `0` denotes the last day of the
preceding month.  The controller only passes `d = 0` or `d = 1`. -/
def mkDate (y m d : Int) : DateTime :=
  let y1 := y + m / 12
  let m1 := m % 12
  if 1 ≤ d then ⟨y1, m1, d, 0⟩
  else
    let y2 := if m1 == 0 then y1 - 1 else y1
    let m2 := if m1 == 0 then 11 else m1 - 1
    ⟨y2, m2, daysInMonth y2 m2 + d, 0⟩

/-- JS `Math.round`: round half toward positive infinity. -/
def jsRound (x : ℚ) : Int :=
  (x + 1/2).floor

/-- Admission status enum of the admission model. -/
inductive AdmissionStatus where
  | active
  | pending
  | inactive
  | completed
deriving Repr, DecidableEq

/-- User role enum of the user model (`modal/user.ts`). -/
inductive Role where
  | student
  | teacher
  | admin
deriving Repr, DecidableEq

/-- An admission document: the fields the controller reads.  `class_` stands
for the source field `class` (a Lean keyword). -/
structure Admission where
  status : AdmissionStatus
  admissionDate : DateTime
  monthlyFee : ℚ
  class_ : String
  batch : String
  name : String
deriving Repr, DecidableEq

/-- A user document: the fields the staff-count query filters on.  The
`user` schema does not declare an `isActive` path, so the field is optional
on documents; the filter `isActive: true` matches exactly the documents
carrying the value `true`. -/
structure UserRec where
  role : Role
  isActive : Option Bool
deriving Repr, DecidableEq

/-- The two collections the controller queries. -/
structure DB where
  admissions : List Admission
  users : List UserRec
deriving Repr

/-- Date boundary `startOfMonth = new Date(now.getFullYear(), now.getMonth(), 1)`. -/
def startOfMonth (now : DateTime) : DateTime :=
  mkDate now.year now.month 1

/-- Date boundary `startOfLastMonth = new Date(now.getFullYear(), now.getMonth() - 1, 1)`. -/
def startOfLastMonth (now : DateTime) : DateTime :=
  mkDate now.year (now.month - 1) 1

/-- Date boundary `endOfLastMonth = new Date(now.getFullYear(), now.getMonth(), 0)`. -/
def endOfLastMonth (now : DateTime) : DateTime :=
  mkDate now.year now.month 0

/-- Query: `Admission.countDocuments({status: "active"})`. -/
def totalStudents (db : DB) : Nat :=
  (db.admissions.filter (fun a => a.status == .active)).length

/-- Query: active admissions with `admissionDate: {$gte: startOfMonth}`. -/
def studentsThisMonth (db : DB) (now : DateTime) : Nat :=
  (db.admissions.filter (fun a =>
    a.status == .active && (startOfMonth now).dle a.admissionDate)).length

/-- Query: active admissions with
`admissionDate: {$gte: startOfLastMonth, $lte: endOfLastMonth}`. -/
def studentsLastMonth (db : DB) (now : DateTime) : Nat :=
  (db.admissions.filter (fun a =>
    a.status == .active && (startOfLastMonth now).dle a.admissionDate &&
      a.admissionDate.dle (endOfLastMonth now))).length

/-- Query: `User.countDocuments({role: {$in: ["teacher", "admin"]}, isActive: true})`. -/
def totalTeachers (db : DB) : Nat :=
  (db.users.filter (fun u =>
    (u.role == .teacher || u.role == .admin) && u.isActive == some true)).length

/-- Query: all admissions with `admissionDate: {$gte: startOfMonth}`. -/
def newAdmissionsThisMonth (db : DB) (now : DateTime) : Nat :=
  (db.admissions.filter (fun a => (startOfMonth now).dle a.admissionDate)).length

/-- Query: all admissions inside the last-month window. -/
def newAdmissionsLastMonth (db : DB) (now : DateTime) : Nat :=
  (db.admissions.filter (fun a =>
    (startOfLastMonth now).dle a.admissionDate &&
      a.admissionDate.dle (endOfLastMonth now))).length

/-- Query: `Admission.countDocuments({status: "pending"})`. -/
def pendingAdmissions (db : DB) : Nat :=
  (db.admissions.filter (fun a => a.status == .pending)).length

/-- Query: `Admission.countDocuments({status: {$in: ["inactive", "completed"]}})`. -/
def inactiveStudents (db : DB) : Nat :=
  (db.admissions.filter (fun a =>
    a.status == .inactive || a.status == .completed)).length

/-- Growth conditional of lines 46–51 and 70–77 of the controller: it guards
the division by the last-month count with `lastMonth > 0`. -/
def growthPct (thisMonth lastMonth : Nat) : ℚ :=
  if lastMonth > 0 then
    (((thisMonth : ℚ) - (lastMonth : ℚ)) / (lastMonth : ℚ)) * 100
  else if thisMonth > 0 then 100
  else 0

/-- One output row of the revenue `aggregate` pipeline
(`$group: {_id: null, totalMonthlyRevenue: {$sum}, avgMonthlyFee: {$avg}}`). -/
structure RevenueRow where
  totalMonthlyRevenue : ℚ
  avgMonthlyFee : ℚ
deriving Repr, DecidableEq

/-- The revenue pipeline: match `status: "active"`, then a single `$group`
over all matched documents.  With no matching document the pipeline yields no
row at all (Mongo emits no group for an empty input). -/
def revenueData (db : DB) : List RevenueRow :=
  let xs := db.admissions.filter (fun a => a.status == .active)
  if xs.isEmpty then []
  else [⟨(xs.map (fun a => a.monthlyFee)).sum,
         (xs.map (fun a => a.monthlyFee)).sum / (xs.length : ℚ)⟩]

/-- One row of a distribution pipeline (`_id` is the grouping key). -/
structure DistRow where
  id : String
  count : Nat
deriving Repr, DecidableEq

/-- Grouping pipeline shared by the two distributions: match the active
admissions, group by the key with `$sum: 1`, sort ascending by `_id`. -/
def distByKey (db : DB) (key : Admission → String) : List DistRow :=
  let xs := db.admissions.filter (fun a => a.status == .active)
  let ks := List.insertionSort (· ≤ ·) (xs.map key).dedup
  ks.map (fun k => ⟨k, (xs.filter (fun a => key a == k)).length⟩)

/-- Query: active admissions grouped by `class`, sorted by key. -/
def studentsByClass (db : DB) : List DistRow :=
  distByKey db (fun a => a.class_)

/-- Query: active admissions grouped by `batch`, sorted by key. -/
def studentsByBatch (db : DB) : List DistRow :=
  distByKey db (fun a => a.batch)

/-- Projection of `select("name class batch admissionDate status")`. -/
structure RecentAdmission where
  name : String
  class_ : String
  batch : String
  admissionDate : DateTime
  status : AdmissionStatus
deriving Repr, DecidableEq

/-- Query: `Admission.find().sort({admissionDate: -1}).limit(5).select(...)`. -/
def recentAdmissions (db : DB) : List RecentAdmission :=
  ((List.insertionSort (fun a b : Admission =>
      b.admissionDate.dle a.admissionDate = true) db.admissions).take 5).map
    (fun a => ⟨a.name, a.class_, a.batch, a.admissionDate, a.status⟩)

/-- One row of the monthly-trends pipeline: group key
`{year: {$year: date}, month: {$month: date}}` (month 1-based), with admission
count and fee sum. -/
structure TrendRow where
  year : Int
  month : Int
  count : Nat
  revenue : ℚ
deriving Repr, DecidableEq

/-- The `$year`/`$month` group key of an admission (`$month` is 1..12 while
`DateTime.month` is 0-based). -/
def trendKey (a : Admission) : Int × Int :=
  (a.admissionDate.year, a.admissionDate.month + 1)

/-- Boolean ascending order on trend group keys (`$sort: {"_id.year": 1,
"_id.month": 1}`). -/
def ymLE (p q : Int × Int) : Bool :=
  p.1 < q.1 || (p.1 == q.1 && p.2 ≤ q.2)

/-- Query: the monthly-trends pipeline: match admissions with
`admissionDate >= new Date(y, m - 5, 1)`, group by `($year, $month)` summing
count and `monthlyFee`, sort ascending by key. -/
def monthlyTrendsRaw (db : DB) (now : DateTime) : List TrendRow :=
  let xs := db.admissions.filter (fun a =>
    (mkDate now.year (now.month - 5) 1).dle a.admissionDate)
  let ks := List.insertionSort (fun p q => ymLE p q = true) (xs.map trendKey).dedup
  ks.map (fun k =>
    ⟨k.1, k.2, (xs.filter (fun a => trendKey a == k)).length,
      ((xs.filter (fun a => trendKey a == k)).map (fun a => a.monthlyFee)).sum⟩)

/-- The lookup inside the zero-filling loop:
`existingData = monthlyTrendsRaw.find(item => item._id.year === year && item._id.month === month)`
followed by the push of `{_id: {year, month}, count: existingData?.count || 0,
revenue: existingData?.revenue || 0}`. -/
def trendLookup (db : DB) (now : DateTime) (year month : Int) : TrendRow :=
  match (monthlyTrendsRaw db now).find? (fun r =>
      r.year == year && r.month == month) with
  | some r => ⟨year, month, r.count, r.revenue⟩
  | none => ⟨year, month, 0, 0⟩

/-- Body of the zero-filling loop (`for (let i = 5; i >= 0; i--)`) at loop
counter `i = 5 - j`, so that `j` is the position of the produced entry. -/
def trendEntry (db : DB) (now : DateTime) (j : Nat) : TrendRow :=
  let i : Int := 5 - (j : Int)
  let targetDate := mkDate now.year (now.month - i) 1
  trendLookup db now targetDate.year (targetDate.month + 1)

/-- The zero-filling loop: the 6 entries pushed in order, oldest month
first. -/
def monthlyTrends (db : DB) (now : DateTime) : List TrendRow :=
  (List.range 6).map (trendEntry db now)

/-- The `overview` section of the 200 response body.  `monthlyRevenue` and
`avgMonthlyFee` go through `Math.round`. -/
structure OverviewSection where
  totalStudents : Nat
  totalTeachers : Nat
  newAdmissionsThisMonth : Nat
  pendingAdmissions : Nat
  inactiveStudents : Nat
  monthlyRevenue : Int
  avgMonthlyFee : Int
deriving Repr, DecidableEq

/-- The `growth` section: both percentages pass through
`Math.round(g * 10) / 10`. -/
structure GrowthSection where
  studentGrowth : ℚ
  admissionGrowth : ℚ
deriving Repr, DecidableEq

/-- The `distribution` section. -/
structure DistributionSection where
  byClass : List DistRow
  byBatch : List DistRow
deriving Repr, DecidableEq

/-- The `data` object of the overview 200 response. -/
structure ReportData where
  overview : OverviewSection
  growth : GrowthSection
  distribution : DistributionSection
  recentAdmissions : List RecentAdmission
  monthlyTrends : List TrendRow
deriving Repr, DecidableEq

/-- The report assembled by the success path of `getDashboardOverview`
(lines 194–217 of the controller), as a pure function of the store contents
and the clock. -/
def overviewData (db : DB) (now : DateTime) : ReportData :=
  let studentGrowth := growthPct (studentsThisMonth db now) (studentsLastMonth db now)
  let admissionGrowth := growthPct (newAdmissionsThisMonth db now) (newAdmissionsLastMonth db now)
  let monthlyRevenue : ℚ :=
    match revenueData db with
    | [] => 0
    | r :: _ => r.totalMonthlyRevenue
  let avgMonthlyFee : ℚ :=
    match revenueData db with
    | [] => 0
    | r :: _ => r.avgMonthlyFee
  { overview :=
      { totalStudents := totalStudents db
        totalTeachers := totalTeachers db
        newAdmissionsThisMonth := newAdmissionsThisMonth db now
        pendingAdmissions := pendingAdmissions db
        inactiveStudents := inactiveStudents db
        monthlyRevenue := jsRound monthlyRevenue
        avgMonthlyFee := jsRound avgMonthlyFee }
    growth :=
      { studentGrowth := (jsRound (studentGrowth * 10) : ℚ) / 10
        admissionGrowth := (jsRound (admissionGrowth * 10) : ℚ) / 10 }
    distribution :=
      { byClass := studentsByClass db
        byBatch := studentsByBatch db }
    recentAdmissions := recentAdmissions db
    monthlyTrends := monthlyTrends db now }

/-- The `data` object of the quick-stats 200 response. -/
structure QuickStatsData where
  totalActive : Nat
  totalPending : Nat
  totalTeachers : Nat
deriving Repr, DecidableEq

/-- The quick stats as a pure function of the store contents. -/
def quickStatsData (db : DB) : QuickStatsData :=
  { totalActive := totalStudents db
    totalPending := pendingAdmissions db
    totalTeachers := totalTeachers db }

/-- An HTTP response as produced by the two handlers: status code and the
JSON body fields they set (absent fields are `none`). -/
structure Resp (α : Type) where
  status : Nat
  success : Bool
  message : Option String
  error : Option String
  data : Option α
deriving Repr, DecidableEq

/-- Truthiness of `req.user?.userId` in the auth guard: present and not the
empty string. -/
def hasIdentity (auth : Option String) : Bool :=
  match auth with
  | none => false
  | some s => !s.isEmpty

/-- Run the i-th data-store query of a handler against the failure oracle:
either the query fails with the oracle's error text, or it returns the value
the store computes. -/
def runQ {α : Type} (fail : Nat → Option String) (i : Nat) (v : α) :
    Except String α :=
  match fail i with
  | some e => .error e
  | none => .ok v

/-- Number of queries a handler issues when running `total` queries in
sequence against the oracle: all of them, or up to and including the first
failing one. -/
def issuedQueries (fail : Nat → Option String) (total : Nat) : Nat :=
  match (List.range total).find? (fun i => (fail i).isSome) with
  | some i => i + 1
  | none => total

/-- The `try` block of `getDashboardOverview` after the auth guard: the 13
awaited store queries in source order, each fallible, then the report
assembly. -/
def overviewCore (fail : Nat → Option String) (db : DB) (now : DateTime) :
    Except String ReportData := do
  let ts ← runQ fail 0 (totalStudents db)
  let stm ← runQ fail 1 (studentsThisMonth db now)
  let slm ← runQ fail 2 (studentsLastMonth db now)
  let tt ← runQ fail 3 (totalTeachers db)
  let natm ← runQ fail 4 (newAdmissionsThisMonth db now)
  let nalm ← runQ fail 5 (newAdmissionsLastMonth db now)
  let pa ← runQ fail 6 (pendingAdmissions db)
  let ia ← runQ fail 7 (inactiveStudents db)
  let rev ← runQ fail 8 (revenueData db)
  let byClass ← runQ fail 9 (studentsByClass db)
  let byBatch ← runQ fail 10 (studentsByBatch db)
  let recent ← runQ fail 11 (recentAdmissions db)
  let _raw ← runQ fail 12 (monthlyTrendsRaw db now)
  let studentGrowth := growthPct stm slm
  let admissionGrowth := growthPct natm nalm
  let monthlyRevenue : ℚ := match rev with
    | [] => 0
    | r :: _ => r.totalMonthlyRevenue
  let avgMonthlyFee : ℚ := match rev with
    | [] => 0
    | r :: _ => r.avgMonthlyFee
  pure
    { overview :=
        { totalStudents := ts
          totalTeachers := tt
          newAdmissionsThisMonth := natm
          pendingAdmissions := pa
          inactiveStudents := ia
          monthlyRevenue := jsRound monthlyRevenue
          avgMonthlyFee := jsRound avgMonthlyFee }
      growth :=
        { studentGrowth := (jsRound (studentGrowth * 10) : ℚ) / 10
          admissionGrowth := (jsRound (admissionGrowth * 10) : ℚ) / 10 }
      distribution := { byClass := byClass, byBatch := byBatch }
      recentAdmissions := recent
      monthlyTrends := monthlyTrends db now }

/-- Handler `getDashboardOverview`: the 401 guard before any query, then the
fallible queries; a failure is caught and surfaced as a 500 whose body
carries the generic message and the underlying error text.  The second
component is the number of store queries issued. -/
def getDashboardOverview (auth : Option String) (fail : Nat → Option String)
    (db : DB) (now : DateTime) : Resp ReportData × Nat :=
  if hasIdentity auth then
    match overviewCore fail db now with
    | .ok d =>
        ({ status := 200, success := true, message := none, error := none,
           data := some d }, issuedQueries fail 13)
    | .error e =>
        ({ status := 500, success := false,
           message := some "Failed to fetch dashboard data",
           error := some e, data := none }, issuedQueries fail 13)
  else
    ({ status := 401, success := false,
       message := some "Unauthorized - User not authenticated",
       error := none, data := none }, 0)

/-- The `try` block of `getQuickStats` after the auth guard: 3 fallible
queries in source order. -/
def quickStatsCore (fail : Nat → Option String) (db : DB) :
    Except String QuickStatsData := do
  let ta ← runQ fail 0 (totalStudents db)
  let tp ← runQ fail 1 (pendingAdmissions db)
  let tt ← runQ fail 2 (totalTeachers db)
  pure { totalActive := ta, totalPending := tp, totalTeachers := tt }

/-- Handler `getQuickStats`: the 401 guard, then the 3 queries; its catch
block answers 500 with `message: "Failed to fetch stats"` and, unlike the
overview handler, attaches no `error` field. -/
def getQuickStats (auth : Option String) (fail : Nat → Option String)
    (db : DB) (_now : DateTime) : Resp QuickStatsData × Nat :=
  if hasIdentity auth then
    match quickStatsCore fail db with
    | .ok d =>
        ({ status := 200, success := true, message := none, error := none,
           data := some d }, issuedQueries fail 3)
    | .error _ =>
        ({ status := 500, success := false,
           message := some "Failed to fetch stats",
           error := none, data := none }, issuedQueries fail 3)
  else
    ({ status := 401, success := false, message := some "Unauthorized",
       error := none, data := none }, 0)

/-! ## Spec-side definitions

These follow the wording of the specification, to be compared against the
definitions extracted from the controller above. -/

/-- Growth percentage as the spec words it: 0 when both counts are zero, 100
when the prior count is zero but the current is positive, otherwise
`(current - prior) / prior * 100`. -/
def specGrowth (prior current : Nat) : ℚ :=
  if prior = 0 ∧ current = 0 then 0
  else if prior = 0 then 100
  else (((current : ℚ) - (prior : ℚ)) / (prior : ℚ)) * 100

/-- Rounding to one decimal place (ties half-up, as `Math.round` does). -/
def roundTo1 (x : ℚ) : ℚ :=
  (jsRound (x * 10) : ℚ) / 10

/-- Staff count as the spec words it: user records whose role is teacher or
admin and whose `isActive` field is true. -/
def specStaffCount (db : DB) : Nat :=
  (db.users.filter (fun u =>
    decide ((u.role = Role.teacher ∨ u.role = Role.admin) ∧
      u.isActive = some true))).length

/-- Sum of `monthlyFee` over the admission records with status `active`. -/
def activeFeeSum (db : DB) : ℚ :=
  ((db.admissions.filter (fun a =>
    decide (a.status = AdmissionStatus.active))).map (fun a => a.monthlyFee)).sum

/-- Number of admission records with status `active`. -/
def activeCount (db : DB) : Nat :=
  (db.admissions.filter (fun a => decide (a.status = AdmissionStatus.active))).length

/-- The previous calendar month of a well-formed `now` (month in `0..11`),
as a `(year, 0-based month)` pair. -/
def prevYM (now : DateTime) : Int × Int :=
  if now.month == 0 then (now.year - 1, 11) else (now.year, now.month - 1)

/-- First instant of the previous calendar month. -/
def specPrevMonthStart (now : DateTime) : DateTime :=
  ⟨(prevYM now).1, (prevYM now).2, 1, 0⟩

/-- Midnight starting the last day of the previous calendar month.  This is
the instant `new Date(y, m, 0)` actually denotes: the last day of the month
at 00:00, not the last instant of the month. -/
def specPrevMonthLastDayMidnight (now : DateTime) : DateTime :=
  ⟨(prevYM now).1, (prevYM now).2,
    daysInMonth (prevYM now).1 (prevYM now).2, 0⟩

/-- A date-time lies inside the previous calendar month of `now`: calendar
month matches and day and time are in range. -/
def withinPrevCalendarMonth (now d : DateTime) : Bool :=
  d.year == (prevYM now).1 && d.month == (prevYM now).2 &&
    1 ≤ d.day && d.day ≤ daysInMonth (prevYM now).1 (prevYM now).2 &&
    0 ≤ d.ms && d.ms < 86400000

/-- The calendar month `k` months away from the month of `now` (`k < 0` in
the past), as a normalized `(year, 1-based month)` pair read off the
linearized month count `year * 12 + month + k`. -/
def monthAt (now : DateTime) (k : Int) : Int × Int :=
  ((now.year * 12 + now.month + k) / 12,
   (now.year * 12 + now.month + k) % 12 + 1)

/-! ## Concrete example values (used by witnesses and counterexamples) -/

/-- Example clock: February 15, 2024 (JS month 1), midnight. -/
def exNow : DateTime := ⟨2024, 1, 15, 0⟩

/-- Example admission date: January 31, 2024, one millisecond past the
midnight that starts the day — i.e. strictly inside the last day of the
previous calendar month of `exNow`. -/
def exDate : DateTime := ⟨2024, 0, 31, 1⟩

/-- Example active admission admitted at `exDate`. -/
def exAdmission : Admission :=
  ⟨.active, exDate, 100, "class-1", "batch-1", "alice"⟩

/-- Example store holding the single admission `exAdmission`. -/
def exDB : DB := ⟨[exAdmission], []⟩

/-- Failure oracle under which every query succeeds. -/
def noFail : Nat → Option String := fun _ => none

/-- Failure oracle under which every query fails with text `boom`. -/
def allFail : Nat → Option String := fun _ => some "boom"

/-! ## Helper lemmas -/

/-- The controller's growth conditional agrees with the spec's three-case
growth definition. -/
theorem growthPct_eq_specGrowth (thisMonth lastMonth : Nat) :
    growthPct thisMonth lastMonth = specGrowth lastMonth thisMonth := by
  unfold growthPct specGrowth
  rcases Nat.eq_zero_or_pos lastMonth with h | h
  · subst h
    rcases Nat.eq_zero_or_pos thisMonth with h' | h'
    · subst h'; simp
    · have h0 : thisMonth ≠ 0 := Nat.pos_iff_ne_zero.mp h'
      simp [h', h0]
  · have h0 : lastMonth ≠ 0 := Nat.pos_iff_ne_zero.mp h
    simp [h, h0]

/-- The Bool staff filter of the controller agrees with the spec's
Prop-level staff filter. -/
theorem totalTeachers_eq_specStaffCount (db : DB) :
    totalTeachers db = specStaffCount db := by
  unfold totalTeachers specStaffCount
  congr 1
  apply List.filter_congr
  intro u _
  cases hr : u.role <;> cases hi : u.isActive <;> simp [hr, hi]

/-- The Bool active filter of the controller agrees with the spec's
Prop-level active filter. -/
theorem activeFilter_eq (l : List Admission) :
    l.filter (fun a => a.status == .active) =
      l.filter (fun a => decide (a.status = AdmissionStatus.active)) := by
  apply List.filter_congr
  intro a _
  cases h : a.status <;> simp [h]

/-- The revenue pipeline output, expressed through the spec-side sum and
count: no row when there is no active admission, otherwise one row holding
the fee sum and the fee average. -/
theorem revenueData_eq (db : DB) :
    revenueData db =
      if activeCount db = 0 then []
      else [⟨activeFeeSum db, activeFeeSum db / (activeCount db : ℚ)⟩] := by
  unfold revenueData
  rw [activeFilter_eq]
  unfold activeCount activeFeeSum
  by_cases h :
      (db.admissions.filter (fun a => decide (a.status = AdmissionStatus.active))).isEmpty
  · have hnil := List.isEmpty_iff.mp h
    simp [h, hnil]
  · have hne := List.isEmpty_iff.not.mp h
    have hlen : (db.admissions.filter
        (fun a => decide (a.status = AdmissionStatus.active))).length ≠ 0 := by
      simpa [List.length_eq_zero] using hne
    simp [h, hlen]

/-- When there is no active admission the active fee sum is zero. -/
theorem activeFeeSum_of_count_zero (db : DB) (h : activeCount db = 0) :
    activeFeeSum db = 0 := by
  unfold activeCount at h
  unfold activeFeeSum
  rw [List.length_eq_zero] at h
  simp [h]

/-- C1: for every store state and clock, both reported growth percentages
(`studentGrowth` and `admissionGrowth`) equal the spec's growth formula
applied to the respective last-month and this-month counts — 0 when both
counts are zero, 100 when the prior count is zero and the current positive,
otherwise `(current - prior) / prior * 100` — rounded to one decimal place. -/
theorem growth_percentage_formula (db : DB) (now : DateTime) :
    (overviewData db now).growth.studentGrowth =
      roundTo1 (specGrowth (studentsLastMonth db now) (studentsThisMonth db now)) ∧
    (overviewData db now).growth.admissionGrowth =
      roundTo1 (specGrowth (newAdmissionsLastMonth db now)
        (newAdmissionsThisMonth db now)) := by
  constructor <;> simp [overviewData, roundTo1, growthPct_eq_specGrowth]

/-- C2: in both the overview and the quick stats, the reported staff count
equals the number of user records whose role is teacher or admin and whose
`isActive` field is true. -/
theorem staff_count_spec (db : DB) (now : DateTime) :
    (overviewData db now).overview.totalTeachers = specStaffCount db ∧
    (quickStatsData db).totalTeachers = specStaffCount db := by
  refine ⟨?_, ?_⟩ <;>
    simp [overviewData, quickStatsData, totalTeachers_eq_specStaffCount]

/-- C5: the overview's `monthlyRevenue` is the sum of `monthlyFee` over the
active admissions rounded to the nearest integer, and `avgMonthlyFee` is that
sum divided by the number of active admissions, rounded to the nearest
integer (with the empty quotient read as 0, as the controller reports). -/
theorem revenue_spec (db : DB) (now : DateTime) :
    (overviewData db now).overview.monthlyRevenue = jsRound (activeFeeSum db) ∧
    (overviewData db now).overview.avgMonthlyFee =
      jsRound (activeFeeSum db / (activeCount db : ℚ)) := by
  have h := revenueData_eq db
  by_cases hc : activeCount db = 0
  · have hs := activeFeeSum_of_count_zero db hc
    rw [hc] at h
    simp only [if_pos rfl] at h
    constructor <;> simp [overviewData, h, hs, hc]
  · rw [if_neg hc] at h
    constructor <;> simp [overviewData, h]

/-- C7: with no caller identity both handlers answer 401, return no data,
and issue zero store queries. -/
theorem unauthenticated_no_queries (fail : Nat → Option String) (db : DB)
    (now : DateTime) :
    (getDashboardOverview none fail db now).1.status = 401 ∧
    (getDashboardOverview none fail db now).1.success = false ∧
    (getDashboardOverview none fail db now).1.data = none ∧
    (getDashboardOverview none fail db now).2 = 0 ∧
    (getQuickStats none fail db now).1.status = 401 ∧
    (getQuickStats none fail db now).1.success = false ∧
    (getQuickStats none fail db now).1.data = none ∧
    (getQuickStats none fail db now).2 = 0 :=
  ⟨rfl, rfl, rfl, rfl, rfl, rfl, rfl, rfl⟩

/-- C9: the overview handler is deterministic in the store contents, the
clock and the failure oracle: two invocations against the same state return
the same response. -/
theorem overview_deterministic (auth : Option String)
    (fail : Nat → Option String) (db : DB) (now : DateTime)
    (r₁ r₂ : Resp ReportData × Nat)
    (h₁ : r₁ = getDashboardOverview auth fail db now)
    (h₂ : r₂ = getDashboardOverview auth fail db now) : r₁ = r₂ :=
  h₁.trans h₂.symm

/-- Witness for C9 at a concrete store, clock and identity. -/
theorem overview_deterministic_witness :
    getDashboardOverview (some "u") noFail exDB exNow =
      getDashboardOverview (some "u") noFail exDB exNow :=
  overview_deterministic (some "u") noFail exDB exNow _ _ rfl rfl

/-- C10: the growth computation divides only under the guard that the
last-month count is positive — in which case the divisor is nonzero — and
otherwise returns 100 or 0 without dividing, so the result is always a
well-defined rational. -/
theorem growth_division_guarded (thisMonth lastMonth : Nat) :
    (lastMonth = 0 →
      growthPct thisMonth lastMonth = if 0 < thisMonth then 100 else 0) ∧
    (0 < lastMonth →
      (lastMonth : ℚ) ≠ 0 ∧
      growthPct thisMonth lastMonth =
        (((thisMonth : ℚ) - (lastMonth : ℚ)) / (lastMonth : ℚ)) * 100) := by
  constructor
  · intro h; subst h; simp [growthPct]
  · intro h
    have h0 : lastMonth ≠ 0 := Nat.pos_iff_ne_zero.mp h
    exact ⟨Nat.cast_ne_zero.mpr h0, by simp [growthPct, h]⟩

/-- Witness for C10: growth of 7 over a zero prior month is 100, and growth
of 15 over a prior of 10 is 50. -/
theorem growth_division_guarded_witness :
    growthPct 7 0 = 100 ∧ growthPct 15 10 = 50 := by
  constructor
  · simpa using (growth_division_guarded 7 0).1 rfl
  · have h := ((growth_division_guarded 15 10).2 (by norm_num)).2
    rw [h]; norm_num

/-- C4 counterexample: at clock `exNow` (Feb 15 2024), the admission
`exAdmission` is active and dated strictly inside the last day of the
previous calendar month (Jan 31 2024, 00:00:00.001), yet neither last-month
count includes it, because the window's upper bound `new Date(y, m, 0)` is
the midnight starting that day, not the last instant of the month. -/
theorem last_month_window_cex :
    exAdmission.status = AdmissionStatus.active ∧
    withinPrevCalendarMonth exNow exAdmission.admissionDate = true ∧
    studentsLastMonth exDB exNow = 0 ∧
    newAdmissionsLastMonth exDB exNow = 0 := by
  refine ⟨rfl, by decide, by decide, by decide⟩

/-- C4 (amended): for a well-formed clock, the previous-month window runs
from the first instant of the previous calendar month up to and including
the midnight that starts the last day of that month — not its last instant —
so the two last-month counts count exactly the admissions up to that
midnight, and admissions later on the last day are excluded. -/
theorem last_month_window_amended (db : DB) (now : DateTime)
    (h0 : 0 ≤ now.month) (h1 : now.month < 12) :
    startOfLastMonth now = specPrevMonthStart now ∧
    endOfLastMonth now = specPrevMonthLastDayMidnight now ∧
    studentsLastMonth db now = (db.admissions.filter (fun a =>
      a.status == .active && (specPrevMonthStart now).dle a.admissionDate &&
        a.admissionDate.dle (specPrevMonthLastDayMidnight now))).length ∧
    newAdmissionsLastMonth db now = (db.admissions.filter (fun a =>
      (specPrevMonthStart now).dle a.admissionDate &&
        a.admissionDate.dle (specPrevMonthLastDayMidnight now))).length := by
  have hstart : startOfLastMonth now = specPrevMonthStart now := by
    unfold startOfLastMonth specPrevMonthStart prevYM mkDate
    by_cases hm : now.month = 0
    · have hd : (now.month - 1) / 12 = -1 := by omega
      have hr : (now.month - 1) % 12 = 11 := by omega
      simp [hm, hd, hr]
      omega
    · have hd : (now.month - 1) / 12 = 0 := by omega
      have hr : (now.month - 1) % 12 = now.month - 1 := by omega
      have hbe : (now.month == 0) = false := by simpa using hm
      simp [hd, hr, hbe]
  have hend : endOfLastMonth now = specPrevMonthLastDayMidnight now := by
    unfold endOfLastMonth specPrevMonthLastDayMidnight prevYM mkDate
    have hd : now.month / 12 = 0 := by omega
    have hr : now.month % 12 = now.month := by omega
    by_cases hm : now.month = 0
    · simp [hm, hd, hr]
    · have hbe : (now.month == 0) = false := by simpa using hm
      simp [hd, hr, hbe]
  refine ⟨hstart, hend, ?_, ?_⟩
  · unfold studentsLastMonth
    rw [hstart, hend]
  · unfold newAdmissionsLastMonth
    rw [hstart, hend]

/-- Witness for the amended C4 at the concrete clock `exNow`. -/
theorem last_month_window_amended_witness :
    startOfLastMonth exNow = specPrevMonthStart exNow ∧
    endOfLastMonth exNow = specPrevMonthLastDayMidnight exNow :=
  ⟨(last_month_window_amended exDB exNow (by decide) (by decide)).1,
   (last_month_window_amended exDB exNow (by decide) (by decide)).2.1⟩

/-- If any of the three quick-stats queries fails, the whole computation
fails with some error. -/
theorem quickStatsCore_fails (fail : Nat → Option String) (db : DB) (i : Nat)
    (hi : i < 3) (hf : (fail i).isSome) :
    ∃ e, quickStatsCore fail db = .error e := by
  cases h0 : fail 0 with
  | some e0 => exact ⟨e0, by simp only [quickStatsCore, runQ, h0]; rfl⟩
  | none =>
    cases h1 : fail 1 with
    | some e1 => exact ⟨e1, by simp only [quickStatsCore, runQ, h0, h1]; rfl⟩
    | none =>
      cases h2 : fail 2 with
      | some e2 =>
        exact ⟨e2, by simp only [quickStatsCore, runQ, h0, h1, h2]; rfl⟩
      | none =>
        exfalso
        interval_cases i <;> simp_all

/-- C8 counterexample: under an oracle where every query fails with text
`boom`, the quick-stats handler answers 500 with a body that carries no
underlying error text (`error` is absent), whereas the overview handler
under the same oracle does attach `error = "boom"` — so the two error
semantics differ and the quick-stats 500 does not carry the error text. -/
theorem quick_stats_error_text_cex :
    (getQuickStats (some "u") allFail exDB exNow).1.error = none ∧
    (getQuickStats (some "u") allFail exDB exNow).1.status = 500 ∧
    (getQuickStats (some "u") allFail exDB exNow).1.message =
      some "Failed to fetch stats" ∧
    (getDashboardOverview (some "u") allFail exDB exNow).1.error =
      some "boom" := by
  refine ⟨rfl, rfl, rfl, rfl⟩

/-- C8 (amended): when any quick-stats query fails, the operation fails as a
whole — a 500 with no data and the generic message — but, unlike the
overview operation, the quick-stats response omits the underlying error
text. -/
theorem quick_stats_failure_amended (auth : Option String)
    (fail : Nat → Option String) (db : DB) (now : DateTime)
    (hauth : hasIdentity auth = true) (i : Nat) (hi : i < 3)
    (hf : (fail i).isSome) :
    (getQuickStats auth fail db now).1.status = 500 ∧
    (getQuickStats auth fail db now).1.success = false ∧
    (getQuickStats auth fail db now).1.message =
      some "Failed to fetch stats" ∧
    (getQuickStats auth fail db now).1.error = none ∧
    (getQuickStats auth fail db now).1.data = none := by
  obtain ⟨e, he⟩ := quickStatsCore_fails fail db i hi hf
  simp [getQuickStats, hauth, he]

/-- Witness for the amended C8: the all-failing oracle with an authenticated
caller. -/
theorem quick_stats_failure_amended_witness :
    (getQuickStats (some "u") allFail exDB exNow).1.status = 500 ∧
    (getQuickStats (some "u") allFail exDB exNow).1.success = false ∧
    (getQuickStats (some "u") allFail exDB exNow).1.message =
      some "Failed to fetch stats" ∧
    (getQuickStats (some "u") allFail exDB exNow).1.error = none ∧
    (getQuickStats (some "u") allFail exDB exNow).1.data = none :=
  quick_stats_failure_amended (some "u") allFail exDB exNow rfl 0
    (by decide) rfl

/-- The loop's target date for position `j` denotes the calendar month
`j - 5` months away from the current one. -/
theorem mkDateTarget_year_month (now : DateTime) (j : Nat) :
    (mkDate now.year (now.month - (5 - (j : Int))) 1).year =
      (monthAt now ((j : Int) - 5)).1 ∧
    (mkDate now.year (now.month - (5 - (j : Int))) 1).month + 1 =
      (monthAt now ((j : Int) - 5)).2 := by
  unfold mkDate monthAt
  norm_num
  constructor <;> omega

/-- Indexing the trend list below its length yields the loop body. -/
theorem monthlyTrends_getD (db : DB) (now : DateTime) (j : Nat) (hj : j < 6) :
    (monthlyTrends db now).getD j ⟨0, 0, 0, 0⟩ = trendEntry db now j := by
  unfold monthlyTrends
  rw [List.getD_eq_getElem?_getD, List.getElem?_map, List.getElem?_range hj]
  rfl

/-- Both branches of the lookup stamp the entry with the requested
calendar month. -/
theorem trendLookup_year_month (db : DB) (now : DateTime) (year month : Int) :
    (trendLookup db now year month).year = year ∧
    (trendLookup db now year month).month = month := by
  unfold trendLookup
  split <;> exact ⟨rfl, rfl⟩

/-- Both branches of the loop body stamp the entry with the targeted
calendar month. -/
theorem trendEntry_year_month (db : DB) (now : DateTime) (j : Nat) :
    (trendEntry db now j).year = (monthAt now ((j : Int) - 5)).1 ∧
    (trendEntry db now j).month = (monthAt now ((j : Int) - 5)).2 := by
  have h := mkDateTarget_year_month now j
  have hl := trendLookup_year_month db now
    (mkDate now.year (now.month - (5 - (j : Int))) 1).year
    ((mkDate now.year (now.month - (5 - (j : Int))) 1).month + 1)
  exact ⟨hl.1.trans h.1, hl.2.trans h.2⟩

/-- Every row of the raw trends pipeline is keyed by the `($year, $month)`
of some stored admission. -/
theorem mem_monthlyTrendsRaw_key (db : DB) (now : DateTime) (r : TrendRow)
    (hr : r ∈ monthlyTrendsRaw db now) :
    ∃ a ∈ db.admissions, trendKey a = (r.year, r.month) := by
  unfold monthlyTrendsRaw at hr
  simp only [List.mem_map] at hr
  obtain ⟨k, hk, rfl⟩ := hr
  rw [List.mem_insertionSort, List.mem_dedup] at hk
  simp only [List.mem_map] at hk
  obtain ⟨a, ha, hak⟩ := hk
  rw [List.mem_filter] at ha
  exact ⟨a, ha.1, by simp [hak]⟩

/-- A lookup for a calendar month no stored admission falls in yields a
zero entry. -/
theorem trendLookup_zero (db : DB) (now : DateTime) (year month : Int)
    (h : ∀ a ∈ db.admissions, trendKey a ≠ (year, month)) :
    (trendLookup db now year month).count = 0 ∧
    (trendLookup db now year month).revenue = 0 := by
  unfold trendLookup
  split
  next r heq =>
    exfalso
    have hmem : r ∈ monthlyTrendsRaw db now := List.mem_of_find?_eq_some heq
    have hpred := List.find?_some heq
    rw [Bool.and_eq_true, beq_iff_eq, beq_iff_eq] at hpred
    obtain ⟨a, ha, hka⟩ := mem_monthlyTrendsRaw_key db now r hmem
    apply h a ha
    rw [hka, hpred.1, hpred.2]
  next heq => exact ⟨rfl, rfl⟩

/-- A trend entry whose calendar month no stored admission falls in is a
zero entry. -/
theorem trendEntry_zero (db : DB) (now : DateTime) (j : Nat)
    (h : ∀ a ∈ db.admissions, trendKey a ≠ monthAt now ((j : Int) - 5)) :
    (trendEntry db now j).count = 0 ∧ (trendEntry db now j).revenue = 0 := by
  have hym := mkDateTarget_year_month now j
  apply trendLookup_zero
  intro a ha
  have hp : ((mkDate now.year (now.month - (5 - (j : Int))) 1).year,
      (mkDate now.year (now.month - (5 - (j : Int))) 1).month + 1) =
        monthAt now ((j : Int) - 5) :=
    Prod.ext hym.1 hym.2
  rw [hp]
  exact h a ha

/-- C3: for every store state and clock, the monthly trend series has
exactly 6 entries; the entry at position `j` is stamped with the calendar
month `j - 5` months away from the current one (so the series runs oldest to
newest and covers the current month and the 5 preceding ones); an entry whose
month contains no admission carries count 0 and revenue 0; and consecutive
entries carry strictly increasing calendar months (no month repeated or
omitted). -/
theorem monthly_trends_spec (db : DB) (now : DateTime) (j : Nat)
    (hj : j < 6) :
    (monthlyTrends db now).length = 6 ∧
    ((monthlyTrends db now).getD j ⟨0, 0, 0, 0⟩).year =
      (monthAt now ((j : Int) - 5)).1 ∧
    ((monthlyTrends db now).getD j ⟨0, 0, 0, 0⟩).month =
      (monthAt now ((j : Int) - 5)).2 ∧
    ((∀ a ∈ db.admissions, trendKey a ≠ monthAt now ((j : Int) - 5)) →
      ((monthlyTrends db now).getD j ⟨0, 0, 0, 0⟩).count = 0 ∧
      ((monthlyTrends db now).getD j ⟨0, 0, 0, 0⟩).revenue = 0) ∧
    (j + 1 < 6 →
      (((monthlyTrends db now).getD j ⟨0, 0, 0, 0⟩).year <
          ((monthlyTrends db now).getD (j + 1) ⟨0, 0, 0, 0⟩).year ∨
        (((monthlyTrends db now).getD j ⟨0, 0, 0, 0⟩).year =
            ((monthlyTrends db now).getD (j + 1) ⟨0, 0, 0, 0⟩).year ∧
          ((monthlyTrends db now).getD j ⟨0, 0, 0, 0⟩).month <
            ((monthlyTrends db now).getD (j + 1) ⟨0, 0, 0, 0⟩).month))) := by
  rw [monthlyTrends_getD db now j hj]
  have hym := trendEntry_year_month db now j
  refine ⟨?_, hym.1, hym.2, trendEntry_zero db now j, ?_⟩
  · unfold monthlyTrends
    simp
  · intro hj1
    rw [monthlyTrends_getD db now (j + 1) hj1]
    have hym' := trendEntry_year_month db now (j + 1)
    rw [hym.1, hym.2, hym'.1, hym'.2]
    unfold monthAt
    simp only []
    omega

/-- Witness for C3 at the concrete store `exDB`, clock `exNow` and
position 0. -/
theorem monthly_trends_spec_witness :
    (monthlyTrends exDB exNow).length = 6 :=
  (monthly_trends_spec exDB exNow 0 (by norm_num)).1

/-- The key column of a distribution pipeline is the sorted deduplication of
the keys of the active admissions. -/
theorem distByKey_keys (db : DB) (key : Admission → String) :
    (distByKey db key).map DistRow.id =
      List.insertionSort (· ≤ ·)
        ((db.admissions.filter (fun a => a.status == .active)).map key).dedup := by
  unfold distByKey
  rw [List.map_map]
  have hcomp : (DistRow.id ∘ fun k => (⟨k,
      ((db.admissions.filter (fun a => a.status == .active)).filter
        (fun a => key a == k)).length⟩ : DistRow)) = fun k => k := rfl
  rw [hcomp, List.map_id']

/-- Sortedness, freedom from duplicates and key coverage of a distribution
pipeline. -/
theorem distByKey_props (db : DB) (key : Admission → String) :
    ((distByKey db key).map DistRow.id).Sorted (· ≤ ·) ∧
    ((distByKey db key).map DistRow.id).Nodup ∧
    ∀ k, (k ∈ (distByKey db key).map DistRow.id ↔
      ∃ a ∈ db.admissions, a.status = AdmissionStatus.active ∧ key a = k) := by
  rw [distByKey_keys]
  refine ⟨List.sorted_insertionSort _ _, ?_, ?_⟩
  · rw [(List.perm_insertionSort _ _).nodup_iff]
    exact List.nodup_dedup _
  · intro k
    rw [List.mem_insertionSort, List.mem_dedup]
    simp only [List.mem_map, List.mem_filter, beq_iff_eq]
    constructor
    · rintro ⟨a, ⟨ha, hs⟩, hk⟩
      exact ⟨a, ha, hs, hk⟩
    · rintro ⟨a, ha, hs, hk⟩
      exact ⟨a, ⟨ha, hs⟩, hk⟩

/-- C6: in the overview report, each distribution list (`byClass` and
`byBatch`) is sorted ascending by its grouping key, has no duplicate keys,
and its keys are exactly the distinct key values occurring among active
admissions (no key omitted). -/
theorem distributions_spec (db : DB) (now : DateTime) :
    ((overviewData db now).distribution.byClass.map DistRow.id).Sorted (· ≤ ·) ∧
    ((overviewData db now).distribution.byClass.map DistRow.id).Nodup ∧
    (∀ k, k ∈ (overviewData db now).distribution.byClass.map DistRow.id ↔
      ∃ a ∈ db.admissions, a.status = AdmissionStatus.active ∧ a.class_ = k) ∧
    ((overviewData db now).distribution.byBatch.map DistRow.id).Sorted (· ≤ ·) ∧
    ((overviewData db now).distribution.byBatch.map DistRow.id).Nodup ∧
    (∀ k, k ∈ (overviewData db now).distribution.byBatch.map DistRow.id ↔
      ∃ a ∈ db.admissions, a.status = AdmissionStatus.active ∧ a.batch = k) := by
  have hc := distByKey_props db (fun a => a.class_)
  have hb := distByKey_props db (fun a => a.batch)
  exact ⟨hc.1, hc.2.1, hc.2.2, hb.1, hb.2.1, hb.2.2⟩

/-- With no failing query the overview computation succeeds with exactly the
pure report. -/
theorem overviewCore_noFail (db : DB) (now : DateTime) :
    overviewCore noFail db now = .ok (overviewData db now) := rfl

/-- With no failing query the quick-stats computation succeeds with exactly
the pure stats. -/
theorem quickStatsCore_noFail (db : DB) :
    quickStatsCore noFail db = .ok (quickStatsData db) := rfl

/-- Success path of the overview handler: 200 with the pure report and all
13 queries issued. -/
theorem getDashboardOverview_ok (auth : Option String) (db : DB)
    (now : DateTime) (h : hasIdentity auth = true) :
    getDashboardOverview auth noFail db now =
      ({ status := 200, success := true, message := none, error := none,
         data := some (overviewData db now) }, 13) := by
  have hq : issuedQueries noFail 13 = 13 := by decide
  simp [getDashboardOverview, h, overviewCore_noFail, hq]

/-- Success path of the quick-stats handler: 200 with the pure stats and all
3 queries issued. -/
theorem getQuickStats_ok (auth : Option String) (db : DB) (now : DateTime)
    (h : hasIdentity auth = true) :
    getQuickStats auth noFail db now =
      ({ status := 200, success := true, message := none, error := none,
         data := some (quickStatsData db) }, 3) := by
  have hq : issuedQueries noFail 3 = 3 := by decide
  simp [getQuickStats, h, quickStatsCore_noFail, hq]
